import Mathlib

/-!
# Verification of the disaster-dashboard data pipeline

Shallow embedding of the data pipeline of the disaster/emergency-response
dashboard: record normalization (`useDisasterData`), the cross-filter
(`Dashboard.filteredData`, `Dashboard.handleReset`, `Dashboard.uniqueTypes`,
`Dashboard.uniqueCountries`, `Dashboard.yearExtent`), per-type aggregation
(`TypeSeverityChart`), systematic sampling (`ResponseScatterChart`),
country ranking (`CountryRankChart`) and cumulative stacking
(`TimeTrendChart`).

Numbers are modelled as `ℚ` (the JS arithmetic these code paths perform is
exact on the values involved: sums, means, comparisons).  The host
platform's string-to-date and string-to-number parsers (`new Date(s)`,
unary `+s`) are parameters of the normalizer (`JsEnv`); `none` stands for
an invalid date / `NaN`.
-/

/-- The year/month content of a successfully parsed calendar date
(`getFullYear()`, `getMonth() + 1`). -/
structure DateParts where
  year : Int
  month : Nat
  deriving DecidableEq, Repr

/-- One raw CSV row as delivered by the ingestion collaborator: a map from
the fixed field names to strings.  A missing field is the empty string
(JS `undefined` and `""` behave identically in every use below: both are
falsy and both coerce to a non-number / `0`). -/
structure RawRow where
  date : String
  country : String
  disaster_type : String
  severity_index : String
  casualties : String
  economic_loss_usd : String
  response_time_hours : String
  aid_amount_usd : String
  response_efficiency_score : String
  recovery_days : String
  latitude : String
  longitude : String
  deriving Repr

/-- The host platform's parsers, abstracted: `parseDate s` models
`new Date(s)` (`none` = invalid date, i.e. `isNaN(date.getTime())`);
`parseNum s` models unary `+s` (`none` = `NaN`). -/
structure JsEnv where
  parseDate : String → Option DateParts
  parseNum : String → Option ℚ

/-- Models `+s || 0` — JS numeric coercion with fallback: `NaN` (and `0`
itself) falls back to `0`. -/
def coerceNum (env : JsEnv) (s : String) : ℚ :=
  (env.parseNum s).getD 0

/-- One element of `parsedData` in `useDisasterData`: the record built by
the `rawData.map` callback before validation.  `date = none` models an
invalid `Date`; the derived `year`/`month` are recoverable from `date` and
are exposed as accessors below. -/
structure ParsedRecord where
  date : Option DateParts
  country : String
  disaster_type : String
  severity_index : ℚ
  casualties : ℚ
  economic_loss_usd : ℚ
  response_time_hours : ℚ
  aid_amount_usd : ℚ
  response_efficiency_score : ℚ
  recovery_days : ℚ
  latitude : ℚ
  longitude : ℚ
  deriving DecidableEq, Repr

/-- The `rawData.map((d) => {...})` callback of `useDisasterData`. -/
def toParsed (env : JsEnv) (r : RawRow) : ParsedRecord where
  date := env.parseDate r.date
  country := r.country
  disaster_type := r.disaster_type
  severity_index := coerceNum env r.severity_index
  casualties := coerceNum env r.casualties
  economic_loss_usd := coerceNum env r.economic_loss_usd
  response_time_hours := coerceNum env r.response_time_hours
  aid_amount_usd := coerceNum env r.aid_amount_usd
  response_efficiency_score := coerceNum env r.response_efficiency_score
  recovery_days := coerceNum env r.recovery_days
  latitude := coerceNum env r.latitude
  longitude := coerceNum env r.longitude

/-- The validity predicate of `useDisasterData`'s final filter:
`!isNaN(d.date.getTime()) && d.country && d.disaster_type`
(a string is truthy iff non-empty). -/
def isValidRecord (d : ParsedRecord) : Bool :=
  d.date.isSome && d.country != "" && d.disaster_type != ""

/-- Embeds `useDisasterData`'s normalization: map every raw row to a typed record,
then filter out the invalid ones (`parsedData` → `validData`). -/
def normalizeRows (env : JsEnv) (rows : List RawRow) : List ParsedRecord :=
  (rows.map (toParsed env)).filter isValidRecord

/-- The count the hook reports once normalization finishes:
`console.log(`Loaded ${validData.length} disaster events`)` — the number of
rows *kept*. -/
def loadedCount (env : JsEnv) (rows : List RawRow) : Nat :=
  (normalizeRows env rows).length

/-- A normalized event record as consumed by the dashboard and charts
(every record the hook delivers has a valid date, so `year` is a plain
integer here).  Only the fields the dashboard/chart transforms read are
kept. -/
structure Record where
  year : Int
  country : String
  disaster_type : String
  casualties : ℚ
  economic_loss_usd : ℚ
  response_time_hours : ℚ
  deriving DecidableEq, Repr

/-- The Dashboard's global filter state: `yearRange` (inclusive),
`selectedType`, `selectedCountry`. -/
structure FilterState where
  yearRange : Int × Int
  selectedType : String
  selectedCountry : String
  deriving DecidableEq, Repr

/-- Embeds `Dashboard.filteredData`: keep the records matching the year range and
both categorical selectors (`"All"` = no constraint). -/
def filteredData (data : List Record) (st : FilterState) : List Record :=
  data.filter fun d =>
    (decide (st.yearRange.1 ≤ d.year) && decide (d.year ≤ st.yearRange.2)) &&
    (st.selectedType == "All" || d.disaster_type == st.selectedType) &&
    (st.selectedCountry == "All" || d.country == st.selectedCountry)

/-- First-occurrence deduplication: the iteration order of a JS `Set`
(`[...new Set(xs)]`) and of a `d3.rollup` key map (`InternMap` preserves
insertion order), namely the order in which the distinct values first
appear in the input. -/
def firstKeys {α : Type} [DecidableEq α] : List α → List α
  | [] => []
  | a :: rest => a :: firstKeys (rest.filter (fun b => decide (b ≠ a)))
  termination_by l => l.length
  decreasing_by
    simp only [List.length_cons]
    exact Nat.lt_succ_of_le (List.length_filter_le _ _)

/-- Default JS `Array.prototype.sort()` on strings: ascending lexicographic
order, implemented (per ES2019) by a stable sort; a stable sort's output
is unique, so core `mergeSort` embeds it. -/
def jsSortStrings (l : List String) : List String :=
  l.mergeSort (fun a b => decide (a ≤ b))

/-- Embeds `Dashboard.uniqueTypes`:
`['All', ...new Set(data.map(d => d.disaster_type))].sort()` — note the
sort runs on the list with `'All'` already prepended. -/
def uniqueTypes (data : List Record) : List String :=
  if data.isEmpty then []
  else jsSortStrings ("All" :: firstKeys (data.map (·.disaster_type)))

/-- Embeds `Dashboard.uniqueCountries`: the distinct countries sorted, with
`'All'` prepended after sorting. -/
def uniqueCountries (data : List Record) : List String :=
  if data.isEmpty then []
  else "All" :: jsSortStrings (firstKeys (data.map (·.country)))

/-- Embeds `Dashboard.yearExtent`: `[2018, 2024]` for the empty data set, else
`[Math.min(...years), Math.max(...years)]`. -/
def yearExtent : List Record → Int × Int
  | [] => (2018, 2024)
  | d :: ds => ((ds.map (·.year)).foldl min d.year, (ds.map (·.year)).foldl max d.year)

/-- Embeds `Dashboard.handleReset`: the previous filter state is discarded;
`yearRange` becomes the dataset's year extent and both categorical
selectors become `'All'`. -/
def handleReset (data : List Record) (_prev : FilterState) : FilterState :=
  { yearRange := yearExtent data, selectedType := "All", selectedCountry := "All" }

/-- Embeds `d3.mean` as applied in this code base: every group it is applied to is
non-empty (d3 returns `undefined` on an empty list, a case no call site
reaches). -/
def listMean (xs : List ℚ) : ℚ :=
  xs.sum / xs.length

/-- The group of records of one disaster type (the value list `v` that
`d3.rollup(data, ..., d => d.disaster_type)` passes to its reducer,
collected in input order). -/
def typeGroup (data : List Record) (t : String) : List Record :=
  data.filter (fun d => d.disaster_type == t)

/-- One `chartData` entry of `TypeSeverityChart`. -/
structure TypeAgg where
  type : String
  avgCasualties : ℚ
  avgEconomicLoss : ℚ
  count : Nat
  deriving DecidableEq, Repr

/-- The `d3.rollup` by disaster type of `TypeSeverityChart` plus the
`Array.from` conversion: one entry per type in first-appearance order,
mean casualties, mean economic loss scaled to millions, record count. -/
def typeChartData (data : List Record) : List TypeAgg :=
  (firstKeys (data.map (·.disaster_type))).map fun t =>
    { type := t
      avgCasualties := listMean ((typeGroup data t).map (·.casualties))
      avgEconomicLoss := listMean ((typeGroup data t).map (·.economic_loss_usd)) / 1000000
      count := (typeGroup data t).length }

/-- The final `.sort((a, b) => b.avgCasualties - a.avgCasualties)` of
`TypeSeverityChart` (descending by mean casualties, stable). -/
def typeChartSorted (data : List Record) : List TypeAgg :=
  (typeChartData data).mergeSort (fun a b => decide (b.avgCasualties ≤ a.avgCasualties))

/-- The group of records of one country (the value list of
`d3.rollup(data, ..., d => d.country)`). -/
def countryGroup (data : List Record) (c : String) : List Record :=
  data.filter (fun d => d.country == c)

/-- One aggregated entry of `CountryRankChart`. -/
structure CountryAgg where
  country : String
  avgResponseTime : ℚ
  avgCasualties : ℚ
  avgEconomicLoss : ℚ
  count : Nat
  deriving DecidableEq, Repr

/-- The `d3.rollup` by country of `CountryRankChart` plus the `Array.from`
conversion: one entry per country in first-appearance order (economic loss
scaled to millions inside the reducer). -/
def countryAggs (data : List Record) : List CountryAgg :=
  (firstKeys (data.map (·.country))).map fun c =>
    { country := c
      avgResponseTime := listMean ((countryGroup data c).map (·.response_time_hours))
      avgCasualties := listMean ((countryGroup data c).map (·.casualties))
      avgEconomicLoss := listMean ((countryGroup data c).map (·.economic_loss_usd)) / 1000000
      count := (countryGroup data c).length }

/-- The `metricKey` selection of `CountryRankChart`:
`metric === 'response_time_hours' ? 'avgResponseTime' : metric === 'casualties' ? 'avgCasualties' : 'avgEconomicLoss'`. -/
def metricValue (metric : String) (e : CountryAgg) : ℚ :=
  if metric == "response_time_hours" then e.avgResponseTime
  else if metric == "casualties" then e.avgCasualties
  else e.avgEconomicLoss

/-- Embeds `chartData.sort((a, b) => b[metricKey] - a[metricKey])`: a stable
(ES2019) sort, descending by the selected metric; embedded by the stable
core `mergeSort`. -/
def rankSort (metric : String) (l : List CountryAgg) : List CountryAgg :=
  l.mergeSort (fun a b => decide (metricValue metric b ≤ metricValue metric a))

/-- Embeds `CountryRankChart`'s final `chartData`: sort descending by the selected
metric, then `slice(0, 15)`. -/
def countryChartData (data : List Record) (metric : String) : List CountryAgg :=
  (rankSort metric (countryAggs data)).take 15

/-- Embeds `Array.from(new Set(data.map(d => d.year))).sort()` in
`TimeTrendChart`: the default sort compares the numbers as strings. -/
def yearsSorted (data : List Record) : List Int :=
  (firstKeys (data.map (·.year))).mergeSort (fun a b => decide (toString a ≤ toString b))

/-- Embeds `Array.from(new Set(data.map(d => d.disaster_type))).sort()` in
`TimeTrendChart`. -/
def typesSorted (data : List Record) : List String :=
  jsSortStrings (firstKeys (data.map (·.disaster_type)))

/-- Embeds `nested.get(year)?.get(type)` over the double rollup of
`TimeTrendChart`: `none` (JS `undefined`) when no record has that year, or
when none of that year's records has that type. -/
def nestedGet (data : List Record) (y : Int) (t : String) : Option Nat :=
  let yearGrp := data.filter (fun d => d.year == y)
  if yearGrp.isEmpty then none
  else
    let cellGrp := yearGrp.filter (fun d => d.disaster_type == t)
    if cellGrp.isEmpty then none
    else some cellGrp.length

/-- One dense `stackData` cell: `nested.get(year)?.get(type) || 0`. -/
def stackCell (data : List Record) (y : Int) (t : String) : Nat :=
  (nestedGet data y t).getD 0

/-- The number of records with the given year and disaster type — what a
dense cross-tab cell must equal. -/
def countYearType (data : List Record) (y : Int) (t : String) : Nat :=
  (data.filter (fun d => d.year == y && d.disaster_type == t)).length

/-- Embeds `types.filter((t) => !hiddenTypes.has(t))` in `TimeTrendChart` (the
hidden-type set is modelled by the list of its elements; only membership
is ever used). -/
def visibleTypes (data : List Record) (hidden : List String) : List String :=
  (typesSorted data).filter (fun t => !(hidden.contains t))

/-- One band of a stacked layer: the cumulative interval a type occupies
at one year. -/
structure Band where
  year : Int
  low : Nat
  high : Nat
  deriving DecidableEq, Repr

/-- One layer of the stacked series: a visible type and its per-year
bands. -/
structure StackLayer where
  key : String
  bands : List Band
  deriving DecidableEq, Repr

/-- Embeds the stack layout
`d3.stack().keys(visibleTypes).order(stackOrderNone).offset(stackOffsetNone)`
applied to the dense `stackData`: layer `i` spans, at each year,
`[Σ_{j<i} cell(y, key_j), Σ_{j≤i} cell(y, key_j)]` over the visible keys. -/
def stackSeries (data : List Record) (hidden : List String) : List StackLayer :=
  let vts := visibleTypes data hidden
  vts.enum.map fun p =>
    { key := p.2
      bands := (yearsSorted data).map fun y =>
        { year := y
          low := ((vts.take p.1).map (stackCell data y)).sum
          high := ((vts.take (p.1 + 1)).map (stackCell data y)).sum } }

/-- The total stacked height at one year: the sum of the dense cells of
all visible types (the top of the last layer). -/
def totalHeight (data : List Record) (hidden : List String) (y : Int) : Nat :=
  ((visibleTypes data hidden).map (stackCell data y)).sum

/-- Embeds `MAX_POINTS = 2000` of `ResponseScatterChart`. -/
def MAX_POINTS : Nat := 2000

/-- Embeds `data.filter((_, index) => index % step === 0)`. -/
def filterByIndex (step : Nat) (data : List Record) : List Record :=
  (data.enum.filter (fun p => p.1 % step == 0)).map Prod.snd

/-- The sampling step of `ResponseScatterChart`:
`Math.floor(data.length / MAX_POINTS)`. -/
def sampleStep (data : List Record) : Nat :=
  data.length / MAX_POINTS

/-- Embeds `ResponseScatterChart`'s systematic sampling: identity when the data
fits in `MAX_POINTS`, else keep every `step`-th record (by original index)
and truncate with `.slice(0, MAX_POINTS)`. -/
def sampleScatter (data : List Record) : List Record :=
  if data.length > MAX_POINTS then
    (filterByIndex (sampleStep data) data).take MAX_POINTS
  else data

/-- Every `s`-th element of a list, starting at the head — the reference
description of systematic sampling, used to characterize `filterByIndex`. -/
def everyNth {α : Type} (s : Nat) : List α → List α
  | [] => []
  | a :: rest => a :: everyNth s (rest.drop (s - 1))
  termination_by l => l.length
  decreasing_by
    simp only [List.length_cons, List.length_drop]
    omega

/-- States that the platform numeric parser yields a non-negative value on
a given string, when it yields one at all. -/
def NonnegAt (env : JsEnv) (s : String) : Prop :=
  ∀ q : ℚ, env.parseNum s = some q → 0 ≤ q

/-- A small concrete instance of the host parsers, used to evaluate the
theorems on concrete inputs: `parseDate` accepts exactly `2020-01-05`,
`parseNum` reads exactly `5`, `-5` and `12`. -/
def testEnv : JsEnv where
  parseDate := fun s => if s = "2020-01-05" then some ⟨2020, 1⟩ else none
  parseNum := fun s =>
    if s = "5" then some 5
    else if s = "-5" then some (-5)
    else if s = "12" then some 12
    else none

/-- A raw row that passes all three validations under `testEnv`. -/
def goodRow : RawRow where
  date := "2020-01-05"
  country := "Japan"
  disaster_type := "Flood"
  severity_index := ""
  casualties := "5"
  economic_loss_usd := ""
  response_time_hours := "12"
  aid_amount_usd := ""
  response_efficiency_score := ""
  recovery_days := ""
  latitude := ""
  longitude := ""

/-- A raw row whose date does not parse under `testEnv`. -/
def badRow : RawRow where
  date := "not-a-date"
  country := "Japan"
  disaster_type := "Flood"
  severity_index := ""
  casualties := "5"
  economic_loss_usd := ""
  response_time_hours := ""
  aid_amount_usd := ""
  response_efficiency_score := ""
  recovery_days := ""
  latitude := ""
  longitude := ""

/-- A raw row with a valid date and a negative `casualties` string. -/
def negRow : RawRow where
  date := "2020-01-05"
  country := "Japan"
  disaster_type := "Flood"
  severity_index := ""
  casualties := "-5"
  economic_loss_usd := ""
  response_time_hours := ""
  aid_amount_usd := ""
  response_efficiency_score := ""
  recovery_days := ""
  latitude := ""
  longitude := ""

/-- Concrete normalized record used by the C1 witness. -/
def c1Rec : Record where
  year := 2020
  country := "Japan"
  disaster_type := "Flood"
  casualties := 3
  economic_loss_usd := 1000
  response_time_hours := 12

/-- Concrete group for the aggregator example: one type, casualties
`2, 4, 6`, economic loss `3000000` each. -/
def c3Data : List Record :=
  [ { year := 2020, country := "X", disaster_type := "Flood", casualties := 2,
      economic_loss_usd := 3000000, response_time_hours := 0 },
    { year := 2020, country := "X", disaster_type := "Flood", casualties := 4,
      economic_loss_usd := 3000000, response_time_hours := 0 },
    { year := 2021, country := "Y", disaster_type := "Flood", casualties := 6,
      economic_loss_usd := 3000000, response_time_hours := 0 } ]

/-- Concrete record used by the C4 witness. -/
def c4Rec : Record where
  year := 2020
  country := "X"
  disaster_type := "Flood"
  casualties := 0
  economic_loss_usd := 0
  response_time_hours := 0

/-- Concrete data for the ranking example: countries `A, B, C, D` with
mean response times `12, 30, 30, 5`, emitted in that order. -/
def c5Data : List Record :=
  [ { year := 2020, country := "A", disaster_type := "Storm", casualties := 0,
      economic_loss_usd := 0, response_time_hours := 12 },
    { year := 2020, country := "B", disaster_type := "Storm", casualties := 0,
      economic_loss_usd := 0, response_time_hours := 30 },
    { year := 2020, country := "C", disaster_type := "Storm", casualties := 0,
      economic_loss_usd := 0, response_time_hours := 30 },
    { year := 2020, country := "D", disaster_type := "Storm", casualties := 0,
      economic_loss_usd := 0, response_time_hours := 5 } ]

/-- Concrete data for the stacking example: `flood@2019 = 3`,
`fire@2019 = 2`, `fire@2020 = 5`, `flood@2020 = 0`. -/
def c6Data : List Record :=
  List.replicate 3
    ({ year := 2019, country := "P", disaster_type := "flood",
       casualties := 0, economic_loss_usd := 0, response_time_hours := 0 } : Record) ++
  List.replicate 2
    ({ year := 2019, country := "P", disaster_type := "fire",
       casualties := 0, economic_loss_usd := 0, response_time_hours := 0 } : Record) ++
  List.replicate 5
    ({ year := 2020, country := "P", disaster_type := "fire",
       casualties := 0, economic_loss_usd := 0, response_time_hours := 0 } : Record)

/-- Concrete data set with years `2019` and `2021`, for the reset
witness. -/
def c7Data : List Record :=
  [ { year := 2019, country := "A", disaster_type := "Flood", casualties := 0,
      economic_loss_usd := 0, response_time_hours := 0 },
    { year := 2021, country := "B", disaster_type := "Quake", casualties := 0,
      economic_loss_usd := 0, response_time_hours := 0 } ]

/-- A record whose disaster type sorts before the string `All`. -/
def c9Rec : Record where
  year := 2020
  country := "Brazil"
  disaster_type := "Accident"
  casualties := 0
  economic_loss_usd := 0
  response_time_hours := 0

/-- C1: a record of the data set is in `filteredData` iff its year lies in
the inclusive `yearRange`, its type matches (`"All"` = wildcard) and its
country matches (`"All"` = wildcard); the filter is pure, so a repeated
call with the same state yields the identical subset. -/
theorem filteredData_mem_iff (data : List Record) (st : FilterState) (d : Record)
    (h : d ∈ data) :
    (d ∈ filteredData data st ↔
      (st.yearRange.1 ≤ d.year ∧ d.year ≤ st.yearRange.2) ∧
      (st.selectedType = "All" ∨ d.disaster_type = st.selectedType) ∧
      (st.selectedCountry = "All" ∨ d.country = st.selectedCountry)) ∧
    filteredData data st = filteredData data st := by
  refine ⟨?_, rfl⟩
  unfold filteredData
  rw [List.mem_filter]
  simp [h, and_assoc]

/-- Witness for C1 at a concrete record, data set and filter state. -/
theorem filteredData_mem_iff_witness :
    let d : Record :=
      { year := 2020, country := "Japan", disaster_type := "Flood",
        casualties := 3, economic_loss_usd := 1000, response_time_hours := 12 }
    d ∈ filteredData [d] ⟨(2018, 2024), "All", "Japan"⟩ := by
  intro d
  exact ((filteredData_mem_iff [d] ⟨(2018, 2024), "All", "Japan"⟩ d
    (List.mem_singleton.mpr rfl)).1).mpr
    ⟨⟨by decide, by decide⟩, Or.inl rfl, Or.inr rfl⟩

/-- Membership in the first-occurrence deduplication is membership in the
input. -/
theorem mem_firstKeys {α : Type} [DecidableEq α] :
    ∀ (l : List α) (a : α), a ∈ firstKeys l ↔ a ∈ l
  | [], a => by simp [firstKeys]
  | b :: rest, a => by
    have ih := mem_firstKeys (rest.filter (fun x => decide (x ≠ b))) a
    rw [firstKeys]
    simp only [List.mem_cons, ih, List.mem_filter, decide_eq_true_eq]
    by_cases hab : a = b <;> simp [hab]
  termination_by l => l.length
  decreasing_by
    simp only [List.length_cons]
    exact Nat.lt_succ_of_le (List.length_filter_le _ _)

/-- The first-occurrence deduplication has no duplicates. -/
theorem nodup_firstKeys {α : Type} [DecidableEq α] :
    ∀ l : List α, (firstKeys l).Nodup
  | [] => by simp [firstKeys]
  | b :: rest => by
    have ih := nodup_firstKeys (rest.filter (fun x => decide (x ≠ b)))
    rw [firstKeys]
    refine List.nodup_cons.mpr ⟨?_, ih⟩
    intro hmem
    have := (mem_firstKeys _ b).mp hmem
    simp [List.mem_filter] at this
  termination_by l => l.length
  decreasing_by
    simp only [List.length_cons]
    exact Nat.lt_succ_of_le (List.length_filter_le _ _)

/-- Transitivity of the boolean string comparison used by the JS default
sort. -/
theorem strLeB_trans (a b c : String) (h1 : decide (a ≤ b) = true)
    (h2 : decide (b ≤ c) = true) : decide (a ≤ c) = true := by
  simp only [decide_eq_true_eq] at *
  exact le_trans h1 h2

/-- Totality of the boolean string comparison used by the JS default
sort. -/
theorem strLeB_total (a b : String) : (decide (a ≤ b) || decide (b ≤ a)) = true := by
  simpa using le_total a b

/-- C10: on the empty normalized dataset the dropdown value lists are both
empty (no "All" sentinel) and the year extent is the fixed default
`[2018, 2024]`. -/
theorem empty_dataset_defaults :
    uniqueTypes [] = [] ∧ uniqueCountries [] = [] ∧ yearExtent [] = (2018, 2024) :=
  ⟨rfl, rfl, rfl⟩

/-- C2 (amended): normalization keeps exactly the rows whose date parses
and whose country and disaster type are non-empty, mapped one-to-one in
the original order (no merging, no deduplication), and it reports the
count of rows retained (the logged load count), which equals the number of
valid rows. -/
theorem normalizeRows_spec (env : JsEnv) (rows : List RawRow) :
    normalizeRows env rows =
      (rows.filter fun r =>
        (env.parseDate r.date).isSome && r.country != "" && r.disaster_type != "").map
        (toParsed env) ∧
    loadedCount env rows =
      (rows.filter fun r =>
        (env.parseDate r.date).isSome && r.country != "" && r.disaster_type != "").length := by
  have h1 : normalizeRows env rows =
      (rows.filter fun r =>
        (env.parseDate r.date).isSome && r.country != "" && r.disaster_type != "").map
        (toParsed env) := by
    rw [normalizeRows, List.filter_map]
    rfl
  exact ⟨h1, by rw [loadedCount, h1, List.length_map]⟩

/-- C2 counterexample: on three rows of which one is dropped, the count the
normalization stage reports is `2` (rows retained), not `1` (rows
dropped): normalization does not yield the count of rows dropped. -/
theorem loadedCount_ne_droppedCount :
    loadedCount testEnv [goodRow, goodRow, badRow] ≠
      ([goodRow, goodRow, badRow] : List RawRow).length -
        (normalizeRows testEnv [goodRow, goodRow, badRow]).length := by
  decide

/-- A coerced numeric field is non-negative when the parser only returns
non-negative values for its string. -/
theorem coerceNum_nonneg (env : JsEnv) (s : String) (h : NonnegAt env s) :
    0 ≤ coerceNum env s := by
  rw [coerceNum]
  cases he : env.parseNum s with
  | none => simp
  | some q => simpa using h q he

/-- A numeric field whose string does not parse is coerced to `0`. -/
theorem coerceNum_of_none (env : JsEnv) (s : String) (h : env.parseNum s = none) :
    coerceNum env s = 0 := by
  rw [coerceNum, h]
  rfl

/-- C8 (amended): every numeric measure field of a normalized record is
the parsed raw value with `0` substituted for missing/unparsable input
(never an error), so the seven measures are non-negative whenever the raw
strings parse to non-negative values; the code applies no clamping, so
non-negativity is conditional on the input. -/
theorem toParsed_measures (env : JsEnv) (r : RawRow)
    (h1 : NonnegAt env r.severity_index) (h2 : NonnegAt env r.casualties)
    (h3 : NonnegAt env r.economic_loss_usd) (h4 : NonnegAt env r.response_time_hours)
    (h5 : NonnegAt env r.aid_amount_usd) (h6 : NonnegAt env r.response_efficiency_score)
    (h7 : NonnegAt env r.recovery_days) :
    (0 ≤ (toParsed env r).severity_index ∧ 0 ≤ (toParsed env r).casualties ∧
     0 ≤ (toParsed env r).economic_loss_usd ∧ 0 ≤ (toParsed env r).response_time_hours ∧
     0 ≤ (toParsed env r).aid_amount_usd ∧ 0 ≤ (toParsed env r).response_efficiency_score ∧
     0 ≤ (toParsed env r).recovery_days) ∧
    ((env.parseNum r.severity_index = none → (toParsed env r).severity_index = 0) ∧
     (env.parseNum r.casualties = none → (toParsed env r).casualties = 0) ∧
     (env.parseNum r.economic_loss_usd = none → (toParsed env r).economic_loss_usd = 0) ∧
     (env.parseNum r.response_time_hours = none → (toParsed env r).response_time_hours = 0) ∧
     (env.parseNum r.aid_amount_usd = none → (toParsed env r).aid_amount_usd = 0) ∧
     (env.parseNum r.response_efficiency_score = none →
       (toParsed env r).response_efficiency_score = 0) ∧
     (env.parseNum r.recovery_days = none → (toParsed env r).recovery_days = 0)) := by
  refine ⟨⟨?_, ?_, ?_, ?_, ?_, ?_, ?_⟩, ?_, ?_, ?_, ?_, ?_, ?_, ?_⟩
  · exact coerceNum_nonneg env _ h1
  · exact coerceNum_nonneg env _ h2
  · exact coerceNum_nonneg env _ h3
  · exact coerceNum_nonneg env _ h4
  · exact coerceNum_nonneg env _ h5
  · exact coerceNum_nonneg env _ h6
  · exact coerceNum_nonneg env _ h7
  · exact coerceNum_of_none env _
  · exact coerceNum_of_none env _
  · exact coerceNum_of_none env _
  · exact coerceNum_of_none env _
  · exact coerceNum_of_none env _
  · exact coerceNum_of_none env _
  · exact coerceNum_of_none env _

/-- Witness for C8's amended theorem at a concrete parser and row. -/
theorem toParsed_measures_witness :
    0 ≤ (toParsed testEnv goodRow).casualties := by
  have hnone : ∀ s : String, testEnv.parseNum s = none → NonnegAt testEnv s := by
    intro s hs q hq
    rw [hs] at hq
    exact Option.noConfusion hq
  have h5 : NonnegAt testEnv "5" := by
    intro q hq
    have : some (5 : ℚ) = some q := hq
    rw [← Option.some.inj this]
    norm_num
  have h12 : NonnegAt testEnv "12" := by
    intro q hq
    have : some (12 : ℚ) = some q := hq
    rw [← Option.some.inj this]
    norm_num
  exact (toParsed_measures testEnv goodRow
    (hnone _ rfl) h5 (hnone _ rfl) h12 (hnone _ rfl) (hnone _ rfl) (hnone _ rfl)).1.2.1

/-- C8 counterexample: a raw row with casualties string `-5` survives
validation and yields a normalized record with a negative casualties
measure — the code does not guarantee non-negative measures. -/
theorem toParsed_negative_counterexample :
    toParsed testEnv negRow ∈ normalizeRows testEnv [negRow] ∧
    (toParsed testEnv negRow).casualties < 0 := by
  decide

/-- C9 (amended): both dropdown lists are derived from the full dataset:
`uniqueCountries` is the distinct countries sorted ascending with the
`"All"` sentinel prepended as first element; `uniqueTypes` is sorted
ascending and contains exactly `"All"` and the distinct types, but the
sort runs after `"All"` is prepended, so `"All"` is its first element only
when no type value precedes the string `"All"`. -/
theorem uniqueValues_spec (data : List Record) (h : data ≠ []) :
    (uniqueTypes data).Perm ("All" :: firstKeys (data.map (·.disaster_type))) ∧
    (uniqueTypes data).Pairwise (· ≤ ·) ∧
    (∀ t, t ∈ uniqueTypes data ↔ (t = "All" ∨ ∃ d ∈ data, d.disaster_type = t)) ∧
    uniqueCountries data = "All" :: jsSortStrings (firstKeys (data.map (·.country))) ∧
    (uniqueCountries data).tail.Pairwise (· ≤ ·) ∧
    (uniqueCountries data).tail.Nodup ∧
    (∀ c, c ∈ (uniqueCountries data).tail ↔ ∃ d ∈ data, d.country = c) := by
  have hne : data.isEmpty = false := List.isEmpty_eq_false.mpr h
  have hut : uniqueTypes data =
      jsSortStrings ("All" :: firstKeys (data.map (·.disaster_type))) := by
    rw [uniqueTypes, hne]
    rfl
  have huc : uniqueCountries data =
      "All" :: jsSortStrings (firstKeys (data.map (·.country))) := by
    rw [uniqueCountries, hne]
    rfl
  refine ⟨?_, ?_, ?_, huc, ?_, ?_, ?_⟩
  · rw [hut, jsSortStrings]
    exact List.mergeSort_perm _ _
  · rw [hut, jsSortStrings]
    exact (List.sorted_mergeSort strLeB_trans strLeB_total _).imp
      (fun hab => by simpa using hab)
  · intro t
    rw [hut, jsSortStrings, (List.mergeSort_perm _ _).mem_iff]
    simp [mem_firstKeys, List.mem_map, eq_comm]
  · rw [huc, List.tail_cons, jsSortStrings]
    exact (List.sorted_mergeSort strLeB_trans strLeB_total _).imp
      (fun hab => by simpa using hab)
  · rw [huc, List.tail_cons, jsSortStrings]
    exact (List.mergeSort_perm _ _).symm.nodup (nodup_firstKeys _)
  · intro c
    rw [huc, List.tail_cons, jsSortStrings, (List.mergeSort_perm _ _).mem_iff]
    simp [mem_firstKeys, List.mem_map, eq_comm]

/-- Witness for C9's amended theorem on a one-record dataset. -/
theorem uniqueValues_spec_witness :
    uniqueCountries [c9Rec] = "All" :: jsSortStrings (firstKeys ([c9Rec].map (·.country))) :=
  (uniqueValues_spec [c9Rec] (by decide)).2.2.2.1

/-- C9 counterexample: with the single disaster type `Accident` (which
sorts before `All`), `uniqueTypes` is `["Accident", "All"]` — the `"All"`
sentinel is not its first element, because `uniqueTypes` sorts after
prepending `"All"`. -/
theorem uniqueTypes_counterexample :
    uniqueTypes [c9Rec] = ["Accident", "All"] ∧
    (uniqueTypes [c9Rec]).head? ≠ some "All" := by
  have h : uniqueTypes [c9Rec] = ["Accident", "All"] := by
    simp [uniqueTypes, c9Rec, firstKeys, jsSortStrings, List.mergeSort, List.merge]
    decide
  refine ⟨h, ?_⟩
  rw [h]
  decide

/-- C3: the per-type aggregation has one entry per disaster type that has
at least one record (none for empty groups), whose measures are the
arithmetic mean of the group's values (economic loss scaled to millions)
and whose count is the group size; the empty subset aggregates to the
empty table, and the final display sort only permutes the entries.  In
particular a group with casualties `2, 4, 6` reports mean `4` and count
`3`. -/
theorem typeChartData_spec (data : List Record) :
    (∀ e ∈ typeChartData data,
        e.count = (typeGroup data e.type).length ∧
        0 < e.count ∧
        e.avgCasualties = ((typeGroup data e.type).map (·.casualties)).sum / (e.count : ℚ) ∧
        e.avgEconomicLoss =
          ((typeGroup data e.type).map (·.economic_loss_usd)).sum / (e.count : ℚ) / 1000000) ∧
    (∀ t : String, (∃ e ∈ typeChartData data, e.type = t) ↔ ∃ d ∈ data, d.disaster_type = t) ∧
    typeChartData ([] : List Record) = [] ∧
    (typeChartSorted data).Perm (typeChartData data) ∧
    typeChartData c3Data =
      [{ type := "Flood", avgCasualties := 4, avgEconomicLoss := 3, count := 3 }] := by
  refine ⟨?_, ?_, ?_, ?_, ?_⟩
  · intro e he
    rw [typeChartData] at he
    obtain ⟨t, ht, rfl⟩ := List.mem_map.mp he
    obtain ⟨d, hd, hdt⟩ := List.mem_map.mp ((mem_firstKeys _ t).mp ht)
    have hdg : d ∈ typeGroup data t := by
      rw [typeGroup, List.mem_filter]
      exact ⟨hd, by simp [hdt]⟩
    refine ⟨rfl, List.length_pos_of_mem hdg, ?_, ?_⟩
    · show listMean _ = _
      rw [listMean, List.length_map]
    · show listMean _ / 1000000 = _
      rw [listMean, List.length_map]
  · intro t
    constructor
    · rintro ⟨e, he, rfl⟩
      rw [typeChartData] at he
      obtain ⟨u, hu, rfl⟩ := List.mem_map.mp he
      exact List.mem_map.mp ((mem_firstKeys _ u).mp hu)
    · rintro ⟨d, hd, rfl⟩
      refine ⟨_, List.mem_map.mpr ⟨d.disaster_type, ?_, rfl⟩, rfl⟩
      exact (mem_firstKeys _ _).mpr (List.mem_map.mpr ⟨d, hd, rfl⟩)
  · simp [typeChartData, firstKeys]
  · exact List.mergeSort_perm _ _
  · simp [typeChartData, c3Data, firstKeys, typeGroup, listMean]
    norm_num

/-- Transitivity of the boolean descending-by-metric comparison of the
ranking sort. -/
theorem rankLeB_trans (metric : String) (a b c : CountryAgg)
    (h1 : decide (metricValue metric b ≤ metricValue metric a) = true)
    (h2 : decide (metricValue metric c ≤ metricValue metric b) = true) :
    decide (metricValue metric c ≤ metricValue metric a) = true := by
  simp only [decide_eq_true_eq] at *
  exact le_trans h2 h1

/-- Totality of the boolean descending-by-metric comparison of the ranking
sort. -/
theorem rankLeB_total (metric : String) (a b : CountryAgg) :
    (decide (metricValue metric b ≤ metricValue metric a) ||
      decide (metricValue metric a ≤ metricValue metric b)) = true := by
  simpa using le_total (metricValue metric b) (metricValue metric a)

/-- C5: the country ranking sorts the aggregated groups descending by the
selected metric (for every metric, including the lower-is-better response
time — the direction is never inverted), keeps tied groups in their
original emission order (stability: any descending-ordered subsequence of
the emission list, in particular any tied pair, survives as a subsequence
of the sorted list), and truncates to the first 15 entries.  On countries
`A, B, C, D` with mean response times `12, 30, 30, 5` the output is
`B, C, A, D` — the `B, C` tie keeps emission order. -/
theorem countryChartData_spec (data : List Record) (metric : String) :
    countryChartData data metric = (rankSort metric (countryAggs data)).take 15 ∧
    (countryChartData data metric).length ≤ 15 ∧
    (rankSort metric (countryAggs data)).Perm (countryAggs data) ∧
    (rankSort metric (countryAggs data)).Pairwise
      (fun a b => metricValue metric b ≤ metricValue metric a) ∧
    (∀ c : List CountryAgg,
        c.Pairwise (fun a b => metricValue metric b ≤ metricValue metric a) →
        c.Sublist (countryAggs data) →
        c.Sublist (rankSort metric (countryAggs data))) ∧
    countryChartData c5Data "response_time_hours" =
      [{ country := "B", avgResponseTime := 30, avgCasualties := 0,
         avgEconomicLoss := 0, count := 1 },
       { country := "C", avgResponseTime := 30, avgCasualties := 0,
         avgEconomicLoss := 0, count := 1 },
       { country := "A", avgResponseTime := 12, avgCasualties := 0,
         avgEconomicLoss := 0, count := 1 },
       { country := "D", avgResponseTime := 5, avgCasualties := 0,
         avgEconomicLoss := 0, count := 1 }] := by
  refine ⟨rfl, ?_, ?_, ?_, ?_, ?_⟩
  · rw [countryChartData]
    exact List.length_take_le _ _
  · exact List.mergeSort_perm _ _
  · exact (List.sorted_mergeSort (rankLeB_trans metric) (rankLeB_total metric) _).imp
      (fun hab => by simpa using hab)
  · intro c hc hsub
    exact List.sublist_mergeSort (rankLeB_trans metric) (rankLeB_total metric)
      (hc.imp (fun hab => decide_eq_true hab)) hsub
  · have haggs : countryAggs c5Data =
        [{ country := "A", avgResponseTime := 12, avgCasualties := 0,
           avgEconomicLoss := 0, count := 1 },
         { country := "B", avgResponseTime := 30, avgCasualties := 0,
           avgEconomicLoss := 0, count := 1 },
         { country := "C", avgResponseTime := 30, avgCasualties := 0,
           avgEconomicLoss := 0, count := 1 },
         { country := "D", avgResponseTime := 5, avgCasualties := 0,
           avgEconomicLoss := 0, count := 1 }] := by
      simp [countryAggs, c5Data, firstKeys, countryGroup, listMean, CountryAgg.mk.injEq]
    rw [countryChartData, rankSort, haggs]
    simp [metricValue, List.mergeSort, List.merge]
    norm_num [List.merge]

/-- A left fold of `min` is bounded by its initial value. -/
theorem foldl_min_le_init (l : List Int) (init : Int) : l.foldl min init ≤ init := by
  induction l generalizing init with
  | nil => exact le_refl _
  | cons a l ih => exact le_trans (ih (min init a)) (min_le_left _ _)

/-- A left fold of `min` is bounded by every list element. -/
theorem foldl_min_le_mem (l : List Int) (init : Int) (x : Int) (hx : x ∈ l) :
    l.foldl min init ≤ x := by
  induction l generalizing init with
  | nil => cases hx
  | cons a l ih =>
    rcases List.mem_cons.mp hx with h | h
    · subst h
      exact le_trans (foldl_min_le_init l (min init x)) (min_le_right _ _)
    · exact ih (min init a) h

/-- A left fold of `min` is the initial value or a list element. -/
theorem foldl_min_mem (l : List Int) (init : Int) :
    l.foldl min init = init ∨ l.foldl min init ∈ l := by
  induction l generalizing init with
  | nil => exact Or.inl rfl
  | cons a l ih =>
    rcases ih (min init a) with h | h
    · rcases min_choice init a with hm | hm
      · exact Or.inl (by rw [List.foldl_cons, h, hm])
      · exact Or.inr (by rw [List.foldl_cons, h, hm]; exact List.mem_cons_self _ _)
    · exact Or.inr (List.mem_cons_of_mem _ h)

/-- A left fold of `max` dominates its initial value. -/
theorem le_foldl_max_init (l : List Int) (init : Int) : init ≤ l.foldl max init := by
  induction l generalizing init with
  | nil => exact le_refl _
  | cons a l ih => exact le_trans (le_max_left _ _) (ih (max init a))

/-- A left fold of `max` dominates every list element. -/
theorem le_foldl_max_mem (l : List Int) (init : Int) (x : Int) (hx : x ∈ l) :
    x ≤ l.foldl max init := by
  induction l generalizing init with
  | nil => cases hx
  | cons a l ih =>
    rcases List.mem_cons.mp hx with h | h
    · subst h
      exact le_trans (le_max_right _ _) (le_foldl_max_init l (max init x))
    · exact ih (max init a) h

/-- A left fold of `max` is the initial value or a list element. -/
theorem foldl_max_mem (l : List Int) (init : Int) :
    l.foldl max init = init ∨ l.foldl max init ∈ l := by
  induction l generalizing init with
  | nil => exact Or.inl rfl
  | cons a l ih =>
    rcases ih (max init a) with h | h
    · rcases max_choice init a with hm | hm
      · exact Or.inl (by rw [List.foldl_cons, h, hm])
      · exact Or.inr (by rw [List.foldl_cons, h, hm]; exact List.mem_cons_self _ _)
    · exact Or.inr (List.mem_cons_of_mem _ h)

/-- C7: on a non-empty dataset, whatever the previous filter state, reset
produces the state whose year range is the dataset's true year extent
(attained minimum and maximum of the record years) and whose categorical
selectors are both `"All"`, and filtering the full dataset with the reset
state returns the full dataset. -/
theorem handleReset_spec (data : List Record) (prev : FilterState) (h : data ≠ []) :
    (handleReset data prev).selectedType = "All" ∧
    (handleReset data prev).selectedCountry = "All" ∧
    (handleReset data prev).yearRange = yearExtent data ∧
    ((yearExtent data).1 ∈ data.map (·.year) ∧
      ∀ d ∈ data, (yearExtent data).1 ≤ d.year) ∧
    ((yearExtent data).2 ∈ data.map (·.year) ∧
      ∀ d ∈ data, d.year ≤ (yearExtent data).2) ∧
    filteredData data (handleReset data prev) = data := by
  match data, h with
  | d :: ds, _ =>
    have hminmem : (yearExtent (d :: ds)).1 ∈ (d :: ds).map (·.year) := by
      rw [yearExtent]
      rcases foldl_min_mem (ds.map (·.year)) d.year with hm | hm
      · rw [hm]; exact List.mem_cons_self _ _
      · exact List.mem_cons_of_mem _ hm
    have hminle : ∀ r ∈ d :: ds, (yearExtent (d :: ds)).1 ≤ r.year := by
      intro r hr
      rw [yearExtent]
      rcases List.mem_cons.mp hr with h | h
      · subst h; exact foldl_min_le_init _ _
      · exact foldl_min_le_mem _ _ _ (List.mem_map_of_mem _ h)
    have hmaxmem : (yearExtent (d :: ds)).2 ∈ (d :: ds).map (·.year) := by
      rw [yearExtent]
      rcases foldl_max_mem (ds.map (·.year)) d.year with hm | hm
      · rw [hm]; exact List.mem_cons_self _ _
      · exact List.mem_cons_of_mem _ hm
    have hmaxle : ∀ r ∈ d :: ds, r.year ≤ (yearExtent (d :: ds)).2 := by
      intro r hr
      rw [yearExtent]
      rcases List.mem_cons.mp hr with h | h
      · subst h; exact le_foldl_max_init _ _
      · exact le_foldl_max_mem _ _ _ (List.mem_map_of_mem _ h)
    refine ⟨rfl, rfl, rfl, ⟨hminmem, hminle⟩, ⟨hmaxmem, hmaxle⟩, ?_⟩
    rw [filteredData, List.filter_eq_self]
    intro r hr
    simp [handleReset, hminle r hr, hmaxle r hr]

/-- Witness for C7 at a concrete dataset and previous filter state. -/
theorem handleReset_spec_witness :
    filteredData c7Data (handleReset c7Data ⟨(2020, 2020), "Flood", "A"⟩) = c7Data :=
  (handleReset_spec c7Data ⟨(2020, 2020), "Flood", "A"⟩ (by decide)).2.2.2.2.2

/-- Shifting the start of an enumeration adds a constant to every index. -/
theorem enumFrom_add {α : Type} (l : List α) : ∀ n m : Nat,
    l.enumFrom (n + m) = (l.enumFrom n).map (fun p => (p.1 + m, p.2)) := by
  induction l with
  | nil => intro n m; simp
  | cons a rest ih =>
    intro n m
    rw [List.enumFrom_cons, List.enumFrom_cons, List.map_cons]
    refine congrArg (fun t => (n + m, a) :: t) ?_
    rw [show n + m + 1 = (n + 1) + m from by omega, ih (n + 1) m]

/-- Enumerating from `m` is enumerating from `0` with `m` added to every
index. -/
theorem enumFrom_eq_enum_map {α : Type} (l : List α) (m : Nat) :
    l.enumFrom m = l.enum.map (fun p => (p.1 + m, p.2)) := by
  have h := enumFrom_add l 0 m
  rw [Nat.zero_add] at h
  exact h

/-- Filtering an enumerated list by divisible index keeps exactly every
`s`-th element, in order. -/
theorem filterByIndex_eq_everyNth (s : Nat) (hs : 0 < s) :
    ∀ data : List Record, filterByIndex s data = everyNth s data
  | [] => by simp [filterByIndex, everyNth]
  | a :: rest => by
    have ih := filterByIndex_eq_everyNth s hs (rest.drop (s - 1))
    suffices h : ((List.enumFrom 1 rest).filter (fun p => p.1 % s == 0)).map Prod.snd
        = everyNth s (rest.drop (s - 1)) by
      rw [filterByIndex, List.enum_cons, List.filter_cons]
      rw [everyNth]
      simp only [Nat.zero_mod, beq_self_eq_true, if_true, List.map_cons]
      exact congrArg (fun t => a :: t) h
    have hsplit : rest = rest.take (s - 1) ++ rest.drop (s - 1) :=
      (List.take_append_drop _ _).symm
    conv_lhs => rw [hsplit]
    rw [List.enumFrom_append, List.filter_append, List.map_append]
    have hnil : (List.enumFrom 1 (rest.take (s - 1))).filter (fun p => p.1 % s == 0) = [] := by
      rw [List.filter_eq_nil]
      rintro ⟨i, x⟩ hmem
      obtain ⟨h1, h2, -⟩ := List.mem_enumFrom hmem
      have hlen : (rest.take (s - 1)).length ≤ s - 1 := List.length_take_le _ _
      have hlt : i < s := by omega
      have hmod : i % s = i := Nat.mod_eq_of_lt hlt
      simp only [beq_iff_eq, hmod]
      omega
    rw [hnil, List.map_nil, List.nil_append]
    by_cases hlong : s - 1 ≤ rest.length
    · have htl : (rest.take (s - 1)).length = s - 1 := by
        rw [List.length_take]; omega
      rw [htl, show 1 + (s - 1) = s from by omega]
      rw [enumFrom_eq_enum_map, List.filter_map, List.map_map]
      have hpred : ((fun p : Nat × Record => p.1 % s == 0) ∘
          (fun p : Nat × Record => (p.1 + s, p.2))) = fun p : Nat × Record => p.1 % s == 0 := by
        funext x
        simp [Function.comp, Nat.add_mod_right]
      have hsnd : (Prod.snd ∘ fun p : Nat × Record => (p.1 + s, p.2)) =
          (Prod.snd : Nat × Record → Record) := by
        funext x
        rfl
      rw [hpred, hsnd, ← filterByIndex, ih]
    · have hd : rest.drop (s - 1) = [] := List.drop_eq_nil_of_le (by omega)
      rw [hd]
      simp [everyNth]
  termination_by data => data.length
  decreasing_by
    simp only [List.length_cons, List.length_drop]
    omega

/-- The `i`-th sampled element is the `i·s`-th input element. -/
theorem everyNth_get? {α : Type} (s : Nat) (hs : 0 < s) :
    ∀ (l : List α) (i : Nat), (everyNth s l).get? i = l.get? (i * s)
  | [], i => by simp [everyNth]
  | a :: rest, 0 => by
    rw [everyNth, Nat.zero_mul]
    rfl
  | a :: rest, (i + 1) => by
    have ih := everyNth_get? s hs (rest.drop (s - 1)) i
    rw [everyNth, List.get?_cons_succ, ih, List.get?_drop]
    rw [show (s - 1) + i * s = ((i + 1) * s) - 1 from by cases s with
      | zero => omega
      | succ t => ring_nf; omega]
    rw [show (i + 1) * s = (((i + 1) * s) - 1) + 1 from by cases s with
      | zero => omega
      | succ t => ring_nf; omega]
    rw [List.get?_cons_succ]
    rw [show ((i + 1) * s - 1 + 1) - 1 = (i + 1) * s - 1 from by omega]
  termination_by l _ => l.length
  decreasing_by
    simp only [List.length_cons, List.length_drop]
    omega

/-- C4: sampling returns the input unchanged when it has at most
`MAX_POINTS = 2000` records; otherwise, with `step = ⌊length/2000⌋`, the
`i`-th output record is the input record at original index `i·step`
(indices `0, step, 2·step, …` in original order), truncated to at most
2000 elements; the output is never empty for non-empty input, and
sampling the empty list yields the empty list. -/
theorem sampleScatter_spec (data : List Record) :
    sampleScatter ([] : List Record) = [] ∧
    (data.length ≤ MAX_POINTS → sampleScatter data = data) ∧
    (sampleScatter data).length ≤ MAX_POINTS ∧
    (data ≠ [] → sampleScatter data ≠ []) ∧
    (MAX_POINTS < data.length →
      ∀ i : Nat, i < (sampleScatter data).length →
        (sampleScatter data).get? i = data.get? (i * sampleStep data)) := by
  have hid : data.length ≤ MAX_POINTS → sampleScatter data = data := by
    intro h
    rw [sampleScatter, if_neg (not_lt.mpr h)]
  have hstep : MAX_POINTS < data.length → 0 < sampleStep data := by
    intro h
    rw [sampleStep]
    exact Nat.div_pos (le_of_lt h) (by rw [MAX_POINTS]; omega)
  have hbig : MAX_POINTS < data.length →
      sampleScatter data = (everyNth (sampleStep data) data).take MAX_POINTS := by
    intro h
    rw [sampleScatter, if_pos h, filterByIndex_eq_everyNth _ (hstep h)]
  refine ⟨rfl, hid, ?_, ?_, ?_⟩
  · by_cases h : MAX_POINTS < data.length
    · rw [hbig h]
      exact List.length_take_le _ _
    · rw [hid (not_lt.mp h)]
      exact not_lt.mp h
  · intro hne
    by_cases h : MAX_POINTS < data.length
    · rw [hbig h]
      have hlen : 0 < (everyNth (sampleStep data) data).length := by
        obtain ⟨d, ds, rfl⟩ := List.exists_cons_of_ne_nil hne
        rw [everyNth]
        simp
      have hmp : 0 < MAX_POINTS := by rw [MAX_POINTS]; omega
      rw [← List.length_pos, List.length_take]
      exact lt_min hmp hlen
    · rw [hid (not_lt.mp h)]
      exact hne
  · intro h i hi
    rw [hbig h] at hi ⊢
    have hi' : i < MAX_POINTS := lt_of_lt_of_le hi (List.length_take_le _ _)
    rw [List.get?_take hi', everyNth_get? _ (hstep h)]

/-- Witness for C4 at a one-record list (identity branch) and a
2001-record list (sampling branch). -/
theorem sampleScatter_spec_witness :
    sampleScatter [c4Rec] = [c4Rec] ∧
    (sampleScatter (List.replicate 2001 c4Rec)).get? 0
      = (List.replicate 2001 c4Rec).get? (0 * sampleStep (List.replicate 2001 c4Rec)) := by
  constructor
  · exact (sampleScatter_spec [c4Rec]).2.1 (by decide)
  · have hlen : MAX_POINTS < (List.replicate 2001 c4Rec).length := by
      rw [List.length_replicate, MAX_POINTS]
      omega
    have hne : (List.replicate 2001 c4Rec : List Record) ≠ [] := by
      intro hc
      have hzero := congrArg List.length hc
      rw [List.length_replicate] at hzero
      simp at hzero
    have hpos : 0 < (sampleScatter (List.replicate 2001 c4Rec)).length :=
      List.length_pos.mpr ((sampleScatter_spec (List.replicate 2001 c4Rec)).2.2.2.1 hne)
    exact (sampleScatter_spec (List.replicate 2001 c4Rec)).2.2.2.2 hlen 0 hpos

/-- The dense cross-tab cell of the stack builder equals the number of
records with that year and type — in particular it is `0` (zero-filled)
for every `(year, type)` pair with no records. -/
theorem stackCell_eq_count (data : List Record) (y : Int) (t : String) :
    stackCell data y t = countYearType data y t := by
  have hff : (data.filter (fun d => d.year == y)).filter (fun d => d.disaster_type == t)
      = data.filter (fun d => d.year == y && d.disaster_type == t) := by
    rw [List.filter_filter]
    congr 1
    funext d
    rw [Bool.and_comm]
  rw [stackCell, countYearType, ← hff]
  simp only [nestedGet]
  split
  · next hempty =>
    rw [List.isEmpty_iff] at hempty
    rw [hempty]
    rfl
  · next =>
    split
    · next hcell =>
      rw [List.isEmpty_iff] at hcell
      rw [hcell]
      rfl
    · next => rfl

/-- The keys of an index-enumerated layer list are the underlying key
list. -/
theorem stack_keys_aux (g : Nat × String → List Band) (l : List String) :
    ((l.enum.map (fun p => StackLayer.mk p.2 (g p))).map (fun s => s.key)) = l := by
  rw [List.map_map]
  have h : ((fun s : StackLayer => s.key) ∘ (fun p : Nat × String => StackLayer.mk p.2 (g p)))
      = Prod.snd := by
    funext x
    rfl
  rw [h, List.enum_map_snd]

/-- Removing one element of a duplicate-free list from a sum removes
exactly its contribution. -/
theorem sum_map_filter_ne (f : String → Nat) :
    ∀ (l : List String), l.Nodup → ∀ t₀, t₀ ∈ l →
      ((l.filter (fun t => !(t == t₀))).map f).sum + f t₀ = (l.map f).sum := by
  intro l
  induction l with
  | nil =>
    intro _ t₀ h
    cases h
  | cons a l ih =>
    intro hnd t₀ hmem
    rw [List.nodup_cons] at hnd
    rw [List.filter_cons]
    by_cases hat : a = t₀
    · subst hat
      simp only [beq_self_eq_true, Bool.not_true, Bool.false_eq_true, if_false]
      have hfl : l.filter (fun t => !(t == a)) = l := by
        rw [List.filter_eq_self]
        intro x hx
        simp only [Bool.not_eq_true', beq_eq_false_iff_ne]
        intro hxa
        exact hnd.1 (hxa ▸ hx)
      rw [hfl, List.map_cons, List.sum_cons]
      omega
    · have hmem' : t₀ ∈ l := by
        rcases List.mem_cons.mp hmem with h | h
        · exact absurd h.symm hat
        · exact h
      have hpa : (!(a == t₀)) = true := by
        simp [hat]
      rw [hpa]
      simp only [if_true]
      rw [List.map_cons, List.sum_cons, List.map_cons, List.sum_cons]
      have hih := ih hnd.2 t₀ hmem'
      omega

/-- C6: the stack builder's dense table zero-fills every `(year, type)`
pair with no records (every cell equals the true record count); layer `i`
of the stacked series carries the `i`-th visible type and, per year, the
band from the sum of the counts of the visible types before it to the sum
including it; the layer keys are exactly the declared types with the
hidden ones removed from the key set; and hiding a visible type lowers
each year's total stacked height by exactly that type's count. -/
theorem stackSeries_spec (data : List Record) (hidden : List String) :
    (∀ (y : Int) (t : String), stackCell data y t = countYearType data y t) ∧
    (∀ (i : Nat) (t : String), (visibleTypes data hidden).get? i = some t →
      (stackSeries data hidden).get? i = some
        { key := t
          bands := (yearsSorted data).map fun y =>
            { year := y
              low := (((visibleTypes data hidden).take i).map (countYearType data y)).sum
              high :=
                (((visibleTypes data hidden).take (i + 1)).map (countYearType data y)).sum } }) ∧
    ((stackSeries data hidden).map (fun s => s.key) = visibleTypes data hidden) ∧
    (visibleTypes data hidden = (typesSorted data).filter (fun t => !(hidden.contains t))) ∧
    (∀ t₀ ∈ visibleTypes data hidden, ∀ y : Int,
      totalHeight data (t₀ :: hidden) y + countYearType data y t₀ =
        totalHeight data hidden y) := by
  have hsc : stackCell data = countYearType data :=
    funext fun y => funext fun u => stackCell_eq_count data y u
  refine ⟨fun y t => stackCell_eq_count data y t, ?_, ?_, rfl, ?_⟩
  · intro i t hit
    simp only [stackSeries]
    rw [List.get?_map, List.get?_enum, hit]
    simp only [Option.map_some']
    rw [hsc]
  · simp only [stackSeries]
    exact stack_keys_aux _ _
  · intro t₀ ht₀ y
    have hvis : visibleTypes data (t₀ :: hidden)
        = (visibleTypes data hidden).filter (fun t => !(t == t₀)) := by
      rw [visibleTypes, visibleTypes, List.filter_filter]
      congr 1
      funext t
      rw [List.contains_cons, Bool.not_or, Bool.and_comm]
    have hnd : (visibleTypes data hidden).Nodup := by
      rw [visibleTypes, typesSorted, jsSortStrings]
      exact List.Nodup.filter _ ((List.mergeSort_perm _ _).symm.nodup (nodup_firstKeys _))
    rw [totalHeight, totalHeight, hvis, hsc]
    exact sum_map_filter_ne (countYearType data y) _ hnd t₀ ht₀

/-- Witness for C6 on concrete data: the dense-cell conjunct applied at
year `2020` and type `flood` (a pair with no records). -/
theorem stackSeries_spec_witness :
    stackCell c6Data 2020 "flood" = countYearType c6Data 2020 "flood" :=
  (stackSeries_spec c6Data []).1 2020 "flood"
